import Mathlib

/-!
Verification of the attribute/value reconciliation engine of the
Product-sync-page repository (Shopify → Magento product migration).

The development shallowly embeds the matching, validation and workflow
logic of `src/components/AttributeMapping.tsx`,
`src/components/MultiVariantMapping.tsx`, `App.tsx` and
`functions/import-to-shopify-batch.ts`.

JavaScript numbers that can become `NaN` (a division by zero occurs in
`getStringSimilarity` when both strings are empty) are modelled as
`Option ℚ`, with `none` standing for `NaN`; every comparison against a
`NaN` value is `false`, exactly as in JavaScript.
-/

namespace ProductSync

attribute [local semireducible] Rat.add Rat.sub Rat.mul Rat.inv Rat.ofScientific

/-- A JavaScript number that may be `NaN` (`none`). -/
abbrev JNum := Option ℚ

/-- JS `x >= q`: `false` when `x` is `NaN`. -/
def jsGe (x : JNum) (q : ℚ) : Bool :=
  match x with
  | some v => decide (q ≤ v)
  | none => false

/-- JS `x > q`: `false` when `x` is `NaN`. -/
def jsGt (x : JNum) (q : ℚ) : Bool :=
  match x with
  | some v => decide (q < v)
  | none => false

/-- JS `Math.max`: `NaN` absorbs. -/
def jsMax (x y : JNum) : JNum :=
  match x, y with
  | some a, some b => some (max a b)
  | _, _ => none

/-- JS `+` on numbers: `NaN` absorbs. -/
def jsAdd (x y : JNum) : JNum :=
  match x, y with
  | some a, some b => some (a + b)
  | _, _ => none

/-- JS `String.prototype.toLowerCase` (character-wise). -/
def jsToLower (s : String) : String :=
  String.mk (s.toList.map Char.toLower)

/-!
## StringSimilarity

`getStringSimilarity` (identical copies in `AttributeMapping.tsx` lines
70–97 and `MultiVariantMapping.tsx` lines 40–67) builds the Levenshtein
dynamic-programming table `track` row by row and returns
`1 - track[s2.length][s1.length] / maxLength`.
-/

/-- One inner pass of the DP loop (`for i = 1..s1.length`): given the
character `c2` of the second string for this row, the remaining
characters of the first string, the diagonal (`track[j-1][i-1]`) and
left (`track[j][i-1]`) cells and the rest of the previous row, produce
the cells `track[j][1..]`. -/
def levAux (c2 : Char) : List Char → ℕ → ℕ → List ℕ → List ℕ
  | [], _, _, _ => []
  | _ :: _, _, _, [] => []
  | c1 :: cs, diag, left, up :: ups =>
    let indicator : ℕ := if c1 = c2 then 0 else 1
    let cell := min (left + 1) (min (up + 1) (diag + indicator))
    cell :: levAux c2 cs up cell ups

/-- Row `j` of the DP table from row `j-1` (`track[j][0] = j`). -/
def levNextRow (c2 : Char) (s1 : List Char) (j : ℕ) : List ℕ → List ℕ
  | [] => [j]
  | p0 :: rest => j :: levAux c2 s1 p0 j rest

/-- The outer loop (`for j = 1..s2.length`), threading the current row. -/
def levRows (s1 : List Char) : List Char → ℕ → List ℕ → List ℕ
  | [], _, row => row
  | c2 :: cs, j, row => levRows s1 cs (j + 1) (levNextRow c2 s1 j row)

/-- Cell `track[s2.length][s1.length]`: the last cell of the final row, the
initial row being `track[0][i] = i`. -/
def levDistance (s1 s2 : List Char) : ℕ :=
  (levRows s1 s2 1 (List.range (s1.length + 1))).getLast?.getD 0

/-- Function `getStringSimilarity(str1, str2)`.  When both strings are empty the
source divides `0 / 0`, which in JavaScript is `NaN`; this is the `none`
branch. -/
def getStringSimilarity (str1 str2 : String) : JNum :=
  let s1 := str1.toList.map Char.toLower
  let s2 := str2.toList.map Char.toLower
  let maxLength := max s1.length s2.length
  if maxLength = 0 then none
  else some (1 - (levDistance s1 s2 : ℚ) / (maxLength : ℚ))

/-!
## ValidationEngine

`validateAttributeMapping` and `getValidationState`
(`AttributeMapping.tsx` lines 26–67).
-/

/-- JS `String.prototype.trim` (strip whitespace at both ends). -/
def jsTrim (s : String) : String :=
  String.mk (((s.toList.dropWhile Char.isWhitespace).reverse.dropWhile
    Char.isWhitespace).reverse)

/-- One `{label, value}` option of a select/multiselect attribute. -/
structure AttrOption where
  label : String
  value : String
deriving DecidableEq

/-- The TS union `string | string[]` used for `mappedValue`. -/
inductive MappedValue where
  | str (s : String)
  | arr (l : List String)
deriving DecidableEq

structure ValidationResult where
  isValid : Bool
  similarity : JNum
deriving DecidableEq

/-- Function `validateAttributeMapping(shopifyValue, mappedValue, options?)`
(`AttributeMapping.tsx` lines 26–61).  The first guard
`!mappedValue || (typeof mappedValue === 'string' && !mappedValue.trim())`
only fires for strings (an array is always truthy in JS). -/
def validateAttributeMapping (shopifyValue : String) (mappedValue : MappedValue)
    (options : Option (List AttrOption)) : ValidationResult :=
  match mappedValue with
  | .arr l =>
    { isValid := decide (0 < l.length), similarity := some 1 }
  | .str s =>
    if s = "" ∨ jsTrim s = "" then
      { isValid := false, similarity := some 0 }
    else
      match options with
      | none =>
        -- For text inputs, exact match is valid
        { isValid := true
          similarity := if jsToLower shopifyValue = jsToLower s then some 1
            else some (7/10) }
      | some opts =>
        match opts.find? (fun opt =>
            opt.value == s || jsToLower opt.label == jsToLower s) with
        | some matchingOption =>
          { isValid := true
            similarity :=
              getStringSimilarity (jsToLower shopifyValue)
                (jsToLower matchingOption.label) }
        | none => { isValid := false, similarity := some 0 }

inductive VState where
  | valid
  | warning
  | error
deriving DecidableEq

/-- Function `getValidationState` (`AttributeMapping.tsx` lines 63–67). -/
def getValidationState (validation : ValidationResult) : VState :=
  if validation.isValid = false then .error
  else if jsGe validation.similarity (4/5) then .valid
  else .warning

/-!
## AttributeMatcher

`findBestMatchingOptionValue` and `findBestMatchingAttribute`
(`AttributeMapping.tsx` lines 100–204).
-/

/-- Function `findBestMatchingOptionValue(shopifyValue, options)`
(`AttributeMapping.tsx` lines 100–122): best option by label similarity,
accepted only above 0.6. -/
def findBestMatchingOptionValue (shopifyValue : String)
    (options : Option (List AttrOption)) : String :=
  match options with
  | none => ""
  | some opts =>
    if shopifyValue = "" then ""
    else
      let best := opts.foldl (fun (acc : String × ℚ) option =>
        match getStringSimilarity (jsToLower shopifyValue)
            (jsToLower option.label) with
        | some similarity =>
          if acc.2 < similarity then (option.value, similarity) else acc
        | none => acc) ("", 0)
      if (3 : ℚ)/5 < best.2 then best.1 else ""

/-- A Magento attribute definition.  Fields of the TS interface not read
by the embedded logic (`attribute_id`, `frontend_input`, `is_required`)
are omitted; `frontend_input` only decides at the call sites whether an
options list is passed to `validateAttributeMapping`. -/
structure MagentoAttributeMetadata where
  attribute_code : String
  default_frontend_label : String
  options : Option (List AttrOption)
deriving DecidableEq

/-- The fixed direct-mapping dictionary of
`findBestMatchingAttribute` (`AttributeMapping.tsx` lines 130–146). -/
def directMappings : List (String × String) :=
  [("title", "name"),
   ("description", "description"),
   ("vendor", "manufacturer"),
   ("productType", "product_type"),
   ("color", "color"),
   ("size", "size"),
   ("material", "material"),
   ("weight", "weight"),
   ("brand", "brand"),
   ("sku", "sku"),
   ("price", "price"),
   ("Unit Per Pack", "unit_per_pack"),
   ("E-liquid flavor", "flavor"),
   ("Flavor", "flavor"),
   ("Resistance", "resistance")]

/-- Lookup `directMappings[shopifyAttr]` (JS property lookup, `undefined` when
absent; every stored value is a non-empty string, so truthiness equals
presence). -/
def lookupDirect (shopifyAttr : String) : Option String :=
  (directMappings.find? (fun p => p.1 == shopifyAttr)).map Prod.snd

/-- Normalization `x.toLowerCase().replace(/[^a-z0-9]/g, '')`. -/
def normalize (s : String) : String :=
  String.mk ((s.toList.map Char.toLower).filter fun c =>
    ('a' ≤ c && c ≤ 'z') || ('0' ≤ c && c ≤ '9'))

/-- The per-attribute total of the fuzzy-scoring loop
(`AttributeMapping.tsx` lines 164–187): the larger of the similarities
of the normalized source name against normalized code and normalized
label (0 when the label is falsy), plus a 0.3 bonus when the source
value is non-empty and some option label has similarity above 0.8 to
it. -/
def totalAttrScore (normalizedAttr shopifyValue : String)
    (attr : MagentoAttributeMetadata) : JNum :=
  let nameSimilarity :=
    getStringSimilarity normalizedAttr (normalize attr.attribute_code)
  let labelSimilarity :=
    if attr.default_frontend_label ≠ "" then
      getStringSimilarity normalizedAttr (normalize attr.default_frontend_label)
    else some 0
  let similarity := jsMax nameSimilarity labelSimilarity
  let optionBonus : ℚ :=
    match attr.options with
    | some opts =>
      if shopifyValue ≠ "" ∧ opts.any (fun opt =>
          jsGt (getStringSimilarity (jsToLower opt.label)
            (jsToLower shopifyValue)) (4/5)) then 3/10
      else 0
    | none => 0
  jsAdd similarity (some optionBonus)

/-- The fuzzy-scoring loop from an arbitrary starting state
(`bestMatch`, `bestMatchOptions`, `highestSimilarity`).  A `NaN` total
never beats the running maximum (`NaN > x` is `false` in JS). -/
def fuzzyFoldFrom (normalizedAttr shopifyValue : String)
    (attributes : List MagentoAttributeMetadata)
    (acc : String × Option (List AttrOption) × ℚ) :
    String × Option (List AttrOption) × ℚ :=
  attributes.foldl (fun acc attr =>
    match totalAttrScore normalizedAttr shopifyValue attr with
    | some totalSimilarity =>
      if acc.2.2 < totalSimilarity then
        (attr.attribute_code, attr.options, totalSimilarity)
      else acc
    | none => acc) acc

/-- The loop with the source's initial state
(`bestMatch = ''`, `bestMatchOptions = undefined`,
`highestSimilarity = 0`). -/
def fuzzyFold (normalizedAttr shopifyValue : String)
    (attributes : List MagentoAttributeMetadata) :
    String × Option (List AttrOption) × ℚ :=
  fuzzyFoldFrom normalizedAttr shopifyValue attributes ("", none, 0)

/-- Comparison `x ≤ q` read on a JS number, `NaN` counting as below any bound
(a `NaN` can never win the running-maximum comparison). -/
def scoreAtMost (x : JNum) (q : ℚ) : Bool :=
  match x with
  | some v => decide (v ≤ q)
  | none => true

structure AttrMatch where
  attributeCode : String
  optionValue : String
deriving DecidableEq

/-- Function `findBestMatchingAttribute(shopifyAttr, shopifyValue, attributes)`
(`AttributeMapping.tsx` lines 125–204).  When the direct-mapping lookup
hits but no attribute with the mapped code exists in the catalog, the
source falls through to the fuzzy loop. -/
def findBestMatchingAttribute (shopifyAttr shopifyValue : String)
    (attributes : List MagentoAttributeMetadata) : AttrMatch :=
  let normalizedAttr := normalize shopifyAttr
  let direct :=
    match lookupDirect shopifyAttr with
    | some target =>
      attributes.find? (fun attr : MagentoAttributeMetadata =>
        attr.attribute_code == target)
    | none => none
  match direct with
  | some directMatch =>
    { attributeCode := directMatch.attribute_code
      optionValue := findBestMatchingOptionValue shopifyValue
        directMatch.options }
  | none =>
    let best := fuzzyFold normalizedAttr shopifyValue attributes
    if (2 : ℚ)/5 < best.2.2 then
      { attributeCode := best.1
        optionValue := findBestMatchingOptionValue shopifyValue best.2.1 }
    else { attributeCode := "", optionValue := "" }

/-!
## CategoryMatcher

`findBestMatchingCategory` (`AttributeMapping.tsx` lines 228–256,
`MultiVariantMapping.tsx` lines 119–147).
-/

/-- A separator of the regex `/[\s/]+/`. -/
def isSep (c : Char) : Bool := c.isWhitespace || c == '/'

/-- Worker for JS `split(/[\s/]+/)`: `some cur` accumulates the current
token (reversed), `none` means a separator run is being skipped.  A run
of separators yields one break; leading and trailing runs yield empty
tokens, matching the JS regex-split semantics. -/
def splitAux : List Char → Option (List Char) → List (List Char)
  | [], none => [[]]
  | [], some cur => [cur.reverse]
  | c :: cs, none =>
    if isSep c then splitAux cs none else splitAux cs (some [c])
  | c :: cs, some cur =>
    if isSep c then cur.reverse :: splitAux cs none
    else splitAux cs (some (c :: cur))

/-- Tokenization `s.toLowerCase().split(/[\s/]+/)`. -/
def splitTokens (s : String) : List String :=
  (splitAux (jsToLower s).toList (some [])).map String.mk

/-- JS `hay.includes(needle)` (substring containment). -/
def jsIncludes (hay needle : String) : Bool :=
  hay.toList.tails.any (fun t => needle.toList.isPrefixOf t)

/-- The overlap counter of the category loop: how many product-type
tokens have a bidirectional substring match with some category token. -/
def tokenOverlap (productTypeParts categoryParts : List String) : ℕ :=
  productTypeParts.countP (fun part =>
    categoryParts.any (fun catPart =>
      jsIncludes catPart part || jsIncludes part catPart))

/-- A flattened Magento category as the matcher sees it; only `label`
and `value` are read (the TS interface also carries `level`, `parentId`,
`path`, `fullPath`). -/
structure CategoryOption where
  label : String
  value : String
deriving DecidableEq

/-- The score the loop would assign a category:
`overlap / max(parts.length, catParts.length)` (0 when no token
overlaps; the denominator is never 0 because a JS regex split always
returns at least one element). -/
def categoryScore (productType : String) (category : CategoryOption) : ℚ :=
  let productTypeParts := splitTokens productType
  let categoryParts := splitTokens category.label
  (tokenOverlap productTypeParts categoryParts : ℚ) /
    (max productTypeParts.length categoryParts.length : ℚ)

/-- One step of the `categories.forEach` loop: the entry pushed onto
`matches`, or `none` when `similarity = 0`. -/
def categoryMatch (productType : String) (category : CategoryOption) :
    Option (String × ℚ) :=
  let productTypeParts := splitTokens productType
  let categoryParts := splitTokens category.label
  let overlap := tokenOverlap productTypeParts categoryParts
  if 0 < overlap then
    some (category.value,
      (overlap : ℚ) / (max productTypeParts.length categoryParts.length : ℚ))
  else none

/-- The comparator `(a, b) => b.similarity - a.similarity` orders by
descending score. -/
def scoreGe (a b : String × ℚ) : Prop := b.2 ≤ a.2

instance : DecidableRel scoreGe := fun a b =>
  inferInstanceAs (Decidable (b.2 ≤ a.2))

instance : IsTotal (String × ℚ) scoreGe := ⟨fun a b => le_total b.2 a.2⟩

instance : IsTrans (String × ℚ) scoreGe :=
  ⟨fun _ _ _ h1 h2 => le_trans h2 h1⟩

/-- Function `findBestMatchingCategory(productType, categories)`
(`MultiVariantMapping.tsx` lines 119–147): collect scored matches, sort
descending (JS `sort` is stable; modelled by stable insertion sort),
keep scores above 0.3, return the ids. -/
def findBestMatchingCategory (productType : String)
    (categories : List CategoryOption) : List String :=
  let matchList := categories.filterMap (categoryMatch productType)
  (((matchList.insertionSort scoreGe).filter
    (fun m => decide ((3 : ℚ)/10 < m.2))).map Prod.fst)

/-!
## MappingState: the multi-variant workflow

`MultiVariantMapping.tsx` and `App.tsx`.
-/

/-- One entry of an `AttributeMappingType` object:
`{ value, mappedTo, mappedValue }`. -/
structure MappingEntry where
  value : String
  mappedTo : String
  mappedValue : MappedValue
deriving DecidableEq

/-- An `AttributeMappingType` object (source-field name → entry),
modelled extensionally as a partial map. -/
def MappingSet := String → Option MappingEntry

/-- The component state `productAttributes`: the initialisation effect
(`MultiVariantMapping.tsx` lines 285–329) always populates exactly these
seven keys, and every later edit rewrites one of them (plus `brand`), so
the reachable states are exactly this record. -/
structure ProductAttrs where
  manufacturer : MappingEntry
  brand : MappingEntry
  description : MappingEntry
  category_ids : MappingEntry
  meta_title : MappingEntry
  meta_keyword : MappingEntry
  meta_description : MappingEntry
deriving DecidableEq

/-- The seven keys `updateAllVariants` writes into every variant. -/
def productLevelKeys : List String :=
  ["manufacturer", "brand", "description", "category_ids",
   "meta_title", "meta_keyword", "meta_description"]

/-- The per-variant effect of `updateAllVariants`
(`MultiVariantMapping.tsx` lines 255–283) composed with the parent's
`handleUpdateVariantMapping` merge (`App.tsx` lines 235–245): the spread
`{ ...currentMapping, manufacturer: …, …, meta_description: … }` keeps
every key of the current variant mapping and overwrites the seven
product-level keys (pinning `value` to the product's original fields for
the first four); the parent merge `{ ...old, ...updated }` is the
identity on top of that because `updated` contains every key of `old`. -/
def updateVariantMappings (vendor description productType : String)
    (pa : ProductAttrs) (currentMapping : MappingSet) : MappingSet :=
  fun key =>
    if key = "manufacturer" then some { pa.manufacturer with value := vendor }
    else if key = "brand" then some { pa.brand with value := vendor }
    else if key = "description" then
      some { pa.description with value := description }
    else if key = "category_ids" then
      some { pa.category_ids with value := productType }
    else if key = "meta_title" then some pa.meta_title
    else if key = "meta_keyword" then some pa.meta_keyword
    else if key = "meta_description" then some pa.meta_description
    else currentMapping key

/-- The fields a product-level edit can name.  The UI invokes the two
product-level handlers only with these names
(`MultiVariantMapping.tsx` lines 509, 527, 544, 563, 582, 597, 613), so
the `attributeName === 'vendor'` branches inside them are dead at the
product level. -/
inductive ProductField where
  | manufacturer
  | brand
  | description
  | category_ids
  | meta_title
  | meta_keyword
  | meta_description
deriving DecidableEq

def ProductAttrs.get (pa : ProductAttrs) : ProductField → MappingEntry
  | .manufacturer => pa.manufacturer
  | .brand => pa.brand
  | .description => pa.description
  | .category_ids => pa.category_ids
  | .meta_title => pa.meta_title
  | .meta_keyword => pa.meta_keyword
  | .meta_description => pa.meta_description

def ProductAttrs.set (pa : ProductAttrs) (f : ProductField)
    (e : MappingEntry) : ProductAttrs :=
  match f with
  | .manufacturer => { pa with manufacturer := e }
  | .brand => { pa with brand := e }
  | .description => { pa with description := e }
  | .category_ids => { pa with category_ids := e }
  | .meta_title => { pa with meta_title := e }
  | .meta_keyword => { pa with meta_keyword := e }
  | .meta_description => { pa with meta_description := e }

/-- Handler `handleProductAttributeChange(attributeName, magentoAttr)`
(`MultiVariantMapping.tsx` lines 331–359), restricted to the names the
UI passes (so the `'vendor'` special cases do not fire). -/
def handleProductAttributeChange (_vendor description productType : String)
    (pa : ProductAttrs) (f : ProductField) (magentoAttr : String) :
    ProductAttrs :=
  let currentValue :=
    match f with
    | .description => description
    | .category_ids => productType
    | _ => (pa.get f).value
  pa.set f
    { value := currentValue, mappedTo := magentoAttr
      mappedValue := .str currentValue }

/-- Handler `handleProductValueChange(attributeName, newValue, newLabelValue)`
(`MultiVariantMapping.tsx` lines 361–384), restricted the same way. -/
def handleProductValueChange (pa : ProductAttrs) (f : ProductField)
    (newValue : MappedValue) (newLabelValue : String) : ProductAttrs :=
  pa.set f
    { pa.get f with mappedValue := newValue, value := newLabelValue }

/-- A product-level edit: either handler invocation. -/
inductive ProductEdit where
  | attrChange (f : ProductField) (magentoAttr : String)
  | valueChange (f : ProductField) (newValue : MappedValue)
      (newLabelValue : String)

/-- The product-attribute state after an edit; both handlers then call
`updateAllVariants` with this value. -/
def applyProductEdit (vendor description productType : String)
    (pa : ProductAttrs) : ProductEdit → ProductAttrs
  | .attrChange f magentoAttr =>
    handleProductAttributeChange vendor description productType pa f
      magentoAttr
  | .valueChange f newValue newLabelValue =>
    handleProductValueChange pa f newValue newLabelValue

/-- A `VariantMapping`: a Shopify variant (only the fields the embedded
logic reads: `sku` and `title`) with its mapping set. -/
structure ShopifyVariant where
  sku : String
  title : String

structure VariantMapping where
  variant : ShopifyVariant
  mappings : MappingSet

/-- Function `updateAllVariants` (`MultiVariantMapping.tsx` lines 255–283)
over the whole variant list, composed with the parent merge. -/
def updateAllVariants (vendor description productType : String)
    (pa : ProductAttrs) (variantMappings : List VariantMapping) :
    List VariantMapping :=
  variantMappings.map fun vm =>
    { vm with mappings :=
        updateVariantMappings vendor description productType pa vm.mappings }

/-- The full effect of one product-level edit on the session state. -/
def applyProductEditToSession (vendor description productType : String)
    (pa : ProductAttrs) (variantMappings : List VariantMapping)
    (e : ProductEdit) : ProductAttrs × List VariantMapping :=
  let newAttributes := applyProductEdit vendor description productType pa e
  (newAttributes,
   updateAllVariants vendor description productType newAttributes
     variantMappings)

/-!
## Variant filtering and the existing-children fetch

`getExistingVariants` (`MultiVariantMapping.tsx` lines 26–38) and the
filtering effect (lines 247–253).
-/

/-- Outcome of `fetch('/get-configurable-variants?sku=…')`: a JSON body
with `childSkus`, a non-OK HTTP response (the source then throws), or a
network error (the fetch itself rejects). -/
inductive FetchChildrenResult where
  | success (childSkus : List String)
  | httpError
  | networkError

/-- Function `getExistingVariants(configurableSku)`: both failure paths are
caught and turned into `[]`. -/
def getExistingVariants : FetchChildrenResult → List String
  | .success childSkus => childSkus
  | .httpError => []
  | .networkError => []

/-- The filtering effect: `variantMappings.filter(mapping =>
!existingVariantSkus.includes(mapping.variant.sku))`. -/
def filterVariantMappings (existingVariantSkus : List String)
    (variantMappings : List VariantMapping) : List VariantMapping :=
  variantMappings.filter fun mapping =>
    !(existingVariantSkus.contains mapping.variant.sku)

/-!
## Sequential variant submit

The `for` loop of `handleSaveMapping` (`App.tsx` lines 177–233): one
`/import-to-magento` call per filtered variant, awaited in order; a
non-OK response throws
`Failed to import variant ${variant.title}: ${data.error}`, which ends
the loop and is reported through the surrounding `catch`.
-/

/-- Result of one `/import-to-magento` call: OK, or non-OK with the
response's `error` field. -/
def ImportCall := ShopifyVariant → Except String Unit

/-- The sequential loop: returns the variants whose import call was
actually issued, and—if one failed—the failing variant with the thrown
message. -/
def runVariantImports (importCall : ImportCall) :
    List ShopifyVariant → List ShopifyVariant × Option (ShopifyVariant × String)
  | [] => ([], none)
  | variant :: rest =>
    match importCall variant with
    | .ok _ =>
      let (attempted, failure) := runVariantImports importCall rest
      (variant :: attempted, failure)
    | .error e =>
      ([variant],
       some (variant, "Failed to import variant " ++ variant.title ++ ": " ++ e))

/-!
## Concurrent batch import to additional Shopify stores

`import-to-shopify-batch.ts` lines 55–136 (`importToStore`) and
164–190 (`onRequestPost`).
-/

structure ShopifyStoreConfig where
  id : String
  name : String
  storeUrl : String
deriving DecidableEq

structure ImportResult where
  storeId : String
  storeName : String
  success : Bool
  error : Option String
  productId : Option String
deriving DecidableEq

/-- The outcome of the outbound GraphQL call for one store: the created
product id, or a failure message (HTTP error, user error, or network
rejection — all reach the same `catch`). -/
def StoreCall := ShopifyStoreConfig → Except String String

/-- Function `importToStore(product, store, token, logger)`: never throws — the
`catch` converts any failure into a `success: false` result for this
store alone. -/
def importToStore (call : StoreCall) (store : ShopifyStoreConfig) :
    ImportResult :=
  match call store with
  | .ok productId =>
    { storeId := store.id, storeName := store.name, success := true
      error := none, productId := some productId }
  | .error e =>
    { storeId := store.id, storeName := store.name, success := false
      error := some e, productId := none }

structure BatchSummary where
  total : ℕ
  successful : ℕ
  failed : ℕ
deriving DecidableEq

/-- The fan-out of `onRequestPost`:
`Promise.all(selectedStores.map(store => importToStore(…)))` collects
one result per store in order, then the summary counts successes and
failures. -/
def batchImport (call : StoreCall) (selectedStores : List ShopifyStoreConfig) :
    List ImportResult × BatchSummary :=
  let results := selectedStores.map (importToStore call)
  (results,
   { total := results.length
     successful := (results.filter (fun r => r.success)).length
     failed := (results.filter (fun r => !r.success)).length })

/-!
## Concrete fixtures

Small closed inputs used to instantiate the theorems below.
-/

def exampleEntry : MappingEntry :=
  { value := "", mappedTo := "", mappedValue := .str "" }

def examplePA : ProductAttrs :=
  { manufacturer := exampleEntry, brand := exampleEntry
    description := exampleEntry, category_ids := exampleEntry
    meta_title := exampleEntry, meta_keyword := exampleEntry
    meta_description := exampleEntry }

def exampleVM : VariantMapping :=
  { variant := { sku := "A-1", title := "Variant 1" }
    mappings := fun _ => none }

def exampleVariants : List ShopifyVariant :=
  [{ sku := "A-1", title := "Variant 1" },
   { sku := "A-2", title := "Variant 2" },
   { sku := "A-3", title := "Variant 3" }]

/-- An import backend that rejects exactly the variant with SKU `A-2`. -/
def exampleImportCall : ImportCall := fun variant =>
  if variant.sku = "A-2" then .error "duplicate SKU" else .ok ()

def exampleStores : List ShopifyStoreConfig :=
  [{ id := "s1", name := "Store One", storeUrl := "one.example.com" },
   { id := "s2", name := "Store Two", storeUrl := "two.example.com" },
   { id := "s3", name := "Store Three", storeUrl := "three.example.com" }]

/-- A store backend where exactly store `s2` fails. -/
def exampleStoreCall : StoreCall := fun store =>
  if store.id = "s2" then .error "HTTP error: Unauthorized"
  else .ok "gid://shopify/Product/1"

/-!
## Theorems
-/

theorem levRows_nil_right (s1 : List Char) (j : ℕ) (row : List ℕ) :
    levRows s1 [] j row = row := rfl

/-- With an empty first string every DP row collapses to the single cell
`track[j][0] = j`. -/
theorem levRows_nil_left (cs : List Char) (j : ℕ) :
    levRows [] cs (j + 1) [j] = [j + cs.length] := by
  induction cs generalizing j with
  | nil => simp [levRows]
  | cons c cs ih =>
    show levRows [] cs (j + 1 + 1) (levNextRow c [] (j + 1) [j]) = _
    have hrow : levNextRow c [] (j + 1) [j] = [j + 1] := rfl
    rw [hrow, ih (j + 1)]
    simp
    ring

theorem levDistance_nil_left (s2 : List Char) : levDistance [] s2 = s2.length := by
  unfold levDistance
  have h0 : List.range (List.length ([] : List Char) + 1) = [0] := rfl
  rw [h0]
  cases s2 with
  | nil => rfl
  | cons c cs =>
    show (levRows [] (c :: cs) (0 + 1) [0]).getLast?.getD 0 = _
    rw [levRows_nil_left (c :: cs) 0]
    simp

theorem levDistance_nil_right (s1 : List Char) : levDistance s1 [] = s1.length := by
  unfold levDistance
  rw [levRows_nil_right, List.range_succ, List.getLast?_concat]
  rfl

/-- Counterexample to C2 as stated: on two empty strings the source
computes `1 - 0/0`, which is `NaN` in JavaScript (`none` in the model),
not `1`. -/
theorem c2_counterexample : getStringSimilarity "" "" ≠ some 1 := by decide

/-- C2 (amended): if exactly one of the strings is empty the similarity
is 0; if both are empty it is `NaN` (no numeric value), not 1. -/
theorem c2_empty_string_similarity (a b : String) :
    (a = "" → b = "" → getStringSimilarity a b = none) ∧
    (a = "" → b ≠ "" → getStringSimilarity a b = some 0) ∧
    (a ≠ "" → b = "" → getStringSimilarity a b = some 0) := by
  obtain ⟨la⟩ := a
  obtain ⟨lb⟩ := b
  have hmk : ∀ l : List Char, (String.mk l = "") ↔ l = [] := by
    intro l
    constructor
    · intro h
      have : (String.mk l).data = ("" : String).data := by rw [h]
      simpa using this
    · intro h
      rw [h]
  refine ⟨?_, ?_, ?_⟩
  · intro ha hb
    rw [(hmk la).mp ha, (hmk lb).mp hb]
    decide
  · intro ha hb
    rw [(hmk la).mp ha]
    have hlb : lb ≠ [] := fun h => hb ((hmk lb).mpr h)
    show getStringSimilarity ⟨[]⟩ ⟨lb⟩ = some 0
    unfold getStringSimilarity
    have hs1 : (String.mk [] : String).toList.map Char.toLower = [] := rfl
    have hlen : ((String.mk lb : String).toList.map Char.toLower).length =
        lb.length := by simp [String.toList]
    rw [hs1]
    simp only [List.length_nil, hlen, Nat.zero_max]
    have hpos : lb.length ≠ 0 := by simpa using hlb
    rw [if_neg hpos, levDistance_nil_left, hlen]
    have : ((lb.length : ℚ)) ≠ 0 := by exact_mod_cast hpos
    field_simp
  · intro ha hb
    rw [(hmk lb).mp hb]
    have hla : la ≠ [] := fun h => ha ((hmk la).mpr h)
    show getStringSimilarity ⟨la⟩ ⟨[]⟩ = some 0
    unfold getStringSimilarity
    have hs2 : (String.mk [] : String).toList.map Char.toLower = [] := rfl
    have hlen : ((String.mk la : String).toList.map Char.toLower).length =
        la.length := by simp [String.toList]
    rw [hs2]
    simp only [List.length_nil, hlen, Nat.max_zero]
    have hpos : la.length ≠ 0 := by simpa using hla
    rw [if_neg hpos, levDistance_nil_right]
    rw [List.length_map]
    have hlen2 : ((String.mk la : String).toList).length = la.length := by
      simp [String.toList]
    rw [hlen2]
    have : ((la.length : ℚ)) ≠ 0 := by exact_mod_cast hpos
    field_simp

theorem c2_witness :
    getStringSimilarity "" "x" = some 0 ∧ getStringSimilarity "x" "" = some 0 :=
  ⟨(c2_empty_string_similarity "" "x").2.1 rfl (by decide),
   (c2_empty_string_similarity "x" "").2.2 (by decide) rfl⟩

/-- Counterexample to C1 as stated: for a free-text mapping (no options
list) with the non-empty mapped value `"Blue"` and source value `"Red"`,
the classification is `warning`, not `valid` — the 0.7 similarity the
source assigns to a non-matching text value is read by
`getValidationState` and falls below the 0.8 `valid` threshold. -/
theorem c1_counterexample :
    getValidationState (validateAttributeMapping "Red"
      (MappedValue.str "Blue") none) ≠ VState.valid := by decide

/-- C1 (amended): for a free-text mapping with a non-blank mapped value,
the classification is `valid` exactly when the source value equals the
mapped value case-insensitively, and `warning` otherwise. -/
theorem c1_free_text_classification (shopifyValue s : String)
    (h : jsTrim s ≠ "") :
    getValidationState (validateAttributeMapping shopifyValue
      (MappedValue.str s) none) =
      (if jsToLower shopifyValue = jsToLower s then VState.valid
       else VState.warning) := by
  have hempty : ¬(s = "" ∨ jsTrim s = "") := by
    rintro (rfl | hb)
    · exact h rfl
    · exact h hb
  simp only [validateAttributeMapping]
  rw [if_neg hempty]
  by_cases hc : jsToLower shopifyValue = jsToLower s
  · simp only [if_pos hc]
    decide
  · simp only [if_neg hc]
    decide

theorem c1_witness :
    jsTrim "red" ≠ "" ∧
      getValidationState (validateAttributeMapping "Red"
        (MappedValue.str "red") none) = VState.valid :=
  ⟨by decide, by
    have h := c1_free_text_classification "Red" "red" (by decide)
    rwa [if_pos (by decide)] at h⟩

/-- C8 (confirmed): for a select/multiselect mapping with an options
list and a string mapped value: blank value → `error`; no option whose
`value` equals the mapped value or whose label matches it
case-insensitively → `error`; otherwise, with `s` the similarity of the
source value to the first matching option's label, `s ≥ 0.8` gives
`valid` and `s < 0.8` gives `warning`. -/
theorem c8_select_classification (shopifyValue s : String)
    (opts : List AttrOption) :
    (jsTrim s = "" →
      getValidationState (validateAttributeMapping shopifyValue
        (MappedValue.str s) (some opts)) = VState.error) ∧
    ((∀ o ∈ opts, o.value ≠ s ∧ jsToLower o.label ≠ jsToLower s) →
      getValidationState (validateAttributeMapping shopifyValue
        (MappedValue.str s) (some opts)) = VState.error) ∧
    (∀ o q, jsTrim s ≠ "" →
      opts.find? (fun opt =>
        opt.value == s || jsToLower opt.label == jsToLower s) = some o →
      getStringSimilarity (jsToLower shopifyValue) (jsToLower o.label) =
        some q →
      ((4 : ℚ)/5 ≤ q →
        getValidationState (validateAttributeMapping shopifyValue
          (MappedValue.str s) (some opts)) = VState.valid) ∧
      (q < (4 : ℚ)/5 →
        getValidationState (validateAttributeMapping shopifyValue
          (MappedValue.str s) (some opts)) = VState.warning)) := by
  refine ⟨?_, ?_, ?_⟩
  · intro hblank
    simp only [validateAttributeMapping]
    rw [if_pos (Or.inr hblank)]
    rfl
  · intro hnone
    by_cases hb : s = "" ∨ jsTrim s = ""
    · simp only [validateAttributeMapping]
      rw [if_pos hb]
      rfl
    · have hfind : opts.find? (fun opt =>
          opt.value == s || jsToLower opt.label == jsToLower s) = none := by
        rw [List.find?_eq_none]
        intro o ho
        have := hnone o ho
        simp only [Bool.or_eq_true, beq_iff_eq]
        push_neg
        exact this
      simp only [validateAttributeMapping]
      rw [if_neg hb, hfind]
      rfl
  · intro o q hblank hfind hsim
    have hb : ¬(s = "" ∨ jsTrim s = "") := by
      rintro (rfl | h)
      · exact hblank rfl
      · exact hblank h
    have hval : validateAttributeMapping shopifyValue (MappedValue.str s)
        (some opts) =
        { isValid := true
          similarity := getStringSimilarity (jsToLower shopifyValue)
            (jsToLower o.label) } := by
      simp only [validateAttributeMapping]
      rw [if_neg hb, hfind]
    constructor
    · intro hge
      rw [hval, hsim]
      simp [getValidationState, jsGe, hge]
    · intro hlt
      rw [hval, hsim]
      simp [getValidationState, jsGe, not_le.mpr hlt]

/-- C5 (confirmed): whenever the catalog contains an attribute with code
`manufacturer`, `findBestMatchingAttribute` applied to source field
`vendor` selects it through the direct-mapping dictionary, bypassing the
fuzzy-scoring loop entirely. -/
theorem c5_vendor_direct_mapping (shopifyValue : String)
    (attributes : List MagentoAttributeMetadata)
    (h : ∃ attr ∈ attributes, attr.attribute_code = "manufacturer") :
    (findBestMatchingAttribute "vendor" shopifyValue attributes).attributeCode
      = "manufacturer" := by
  have hlookup : lookupDirect "vendor" = some "manufacturer" := by decide
  have hsome : (attributes.find? (fun attr : MagentoAttributeMetadata =>
      attr.attribute_code == "manufacturer")).isSome := by
    rw [List.find?_isSome]
    obtain ⟨a, ha, hc⟩ := h
    exact ⟨a, ha, by simp [hc]⟩
  obtain ⟨b, hb⟩ := Option.isSome_iff_exists.mp hsome
  have hbc : b.attribute_code = "manufacturer" := by
    have := List.find?_some hb
    simpa using this
  simp only [findBestMatchingAttribute, hlookup, hb]
  exact hbc

theorem c5_witness :
    (findBestMatchingAttribute "vendor" "Acme"
      [{ attribute_code := "manufacturer",
         default_frontend_label := "Manufacturer",
         options := none }]).attributeCode = "manufacturer" :=
  c5_vendor_direct_mapping "Acme" _
    ⟨{ attribute_code := "manufacturer",
       default_frontend_label := "Manufacturer", options := none },
     by simp, rfl⟩

/-- The running maximum of the fuzzy-scoring loop never exceeds a bound
respected by every attribute's total score. -/
theorem fuzzyFoldFrom_le (na sv : String) (q : ℚ) :
    ∀ (attrs : List MagentoAttributeMetadata),
      (∀ attr ∈ attrs, scoreAtMost (totalAttrScore na sv attr) q = true) →
      ∀ acc : String × Option (List AttrOption) × ℚ, acc.2.2 ≤ q →
        (fuzzyFoldFrom na sv attrs acc).2.2 ≤ q := by
  intro attrs
  induction attrs with
  | nil => intro _ acc hacc; exact hacc
  | cons a as ih =>
    intro hlow acc hacc
    have ha := hlow a (by simp)
    have has : ∀ attr ∈ as, scoreAtMost (totalAttrScore na sv attr) q = true :=
      fun attr hm => hlow attr (by simp [hm])
    show (fuzzyFoldFrom na sv as _).2.2 ≤ q
    apply ih has
    cases hta : totalAttrScore na sv a with
    | none => simpa [hta] using hacc
    | some t =>
      have ht : t ≤ q := by simpa [scoreAtMost, hta] using ha
      by_cases hlt : acc.2.2 < t
      · simpa [hta, hlt] using ht
      · simpa [hta, hlt] using hacc

/-- C6 (confirmed): with no direct-mapping entry for the source field
and every attribute's total fuzzy score at most 0.4, the matcher selects
nothing: it returns empty target code and empty target value. -/
theorem c6_low_score_no_selection (shopifyAttr shopifyValue : String)
    (attributes : List MagentoAttributeMetadata)
    (hdirect : lookupDirect shopifyAttr = none)
    (hlow : ∀ attr ∈ attributes,
      scoreAtMost (totalAttrScore (normalize shopifyAttr) shopifyValue attr)
        ((2 : ℚ)/5) = true) :
    findBestMatchingAttribute shopifyAttr shopifyValue attributes =
      { attributeCode := "", optionValue := "" } := by
  have hfold : (fuzzyFold (normalize shopifyAttr) shopifyValue
      attributes).2.2 ≤ (2 : ℚ)/5 :=
    fuzzyFoldFrom_le _ _ _ attributes hlow ("", none, 0) (by norm_num)
  simp only [findBestMatchingAttribute, hdirect]
  rw [if_neg (not_lt.mpr hfold)]

theorem c6_witness :
    findBestMatchingAttribute "zz" "v"
      [{ attribute_code := "qqqq", default_frontend_label := "",
         options := none }] =
      { attributeCode := "", optionValue := "" } :=
  c6_low_score_no_selection "zz" "v" _ (by decide) (by decide)

/-- C7 (confirmed): `findBestMatchingCategory` returns exactly the ids
of the categories scoring above 0.3, in descending score order (the ids
are the first projections of a score-sorted list whose entries are
precisely the categories with score above 0.3); in particular
`"Vape Kits"` matches a `"Vaping / Kits"` category (score 1) and not an
`"Accessories"` category (score 0). -/
theorem c7_category_matching (productType : String)
    (categories : List CategoryOption) :
    (∃ scored : List (String × ℚ),
      findBestMatchingCategory productType categories = scored.map Prod.fst ∧
      scored.Pairwise scoreGe ∧
      (∀ p ∈ scored, ∃ c ∈ categories, c.value = p.1 ∧
        categoryScore productType c = p.2 ∧ (3 : ℚ)/10 < p.2) ∧
      (∀ c ∈ categories, (3 : ℚ)/10 < categoryScore productType c →
        c.value ∈ findBestMatchingCategory productType categories)) ∧
    findBestMatchingCategory "Vape Kits"
      [{ label := "Vaping / Kits", value := "21" },
       { label := "Accessories", value := "30" }] = ["21"] := by
  constructor
  · refine ⟨(((categories.filterMap (categoryMatch productType)).insertionSort
      scoreGe).filter (fun m => decide ((3 : ℚ)/10 < m.2))), rfl, ?_, ?_, ?_⟩
    · exact (List.sorted_insertionSort scoreGe _).sublist
        (List.filter_sublist _)
    · intro p hp
      obtain ⟨hsort, hdec⟩ := List.mem_filter.mp hp
      have hmem : p ∈ categories.filterMap (categoryMatch productType) :=
        (List.mem_insertionSort scoreGe).mp hsort
      obtain ⟨c, hc, hcm⟩ := List.mem_filterMap.mp hmem
      refine ⟨c, hc, ?_, ?_, by simpa using hdec⟩
      · unfold categoryMatch at hcm
        by_cases hov : 0 < tokenOverlap (splitTokens productType)
            (splitTokens c.label)
        · rw [if_pos hov] at hcm
          exact (Prod.mk.injEq _ _ _ _).mp (Option.some.inj hcm) |>.1
        · rw [if_neg hov] at hcm
          exact absurd hcm (by simp)
      · unfold categoryMatch at hcm
        by_cases hov : 0 < tokenOverlap (splitTokens productType)
            (splitTokens c.label)
        · rw [if_pos hov] at hcm
          have := (Prod.mk.injEq _ _ _ _).mp (Option.some.inj hcm) |>.2
          rw [← this]
          rfl
        · rw [if_neg hov] at hcm
          exact absurd hcm (by simp)
    · intro c hc hscore
      have hov : 0 < tokenOverlap (splitTokens productType)
          (splitTokens c.label) := by
        by_contra hz
        have hz0 : tokenOverlap (splitTokens productType)
            (splitTokens c.label) = 0 := Nat.eq_zero_of_not_pos hz
        have : categoryScore productType c = 0 := by
          simp only [categoryScore]
          rw [hz0]
          simp
        rw [this] at hscore
        norm_num at hscore
      have hcm : categoryMatch productType c =
          some (c.value, categoryScore productType c) := by
        unfold categoryMatch
        rw [if_pos hov]
        rfl
      have hmem : (c.value, categoryScore productType c) ∈
          categories.filterMap (categoryMatch productType) :=
        List.mem_filterMap.mpr ⟨c, hc, hcm⟩
      have hsort : (c.value, categoryScore productType c) ∈
          (categories.filterMap (categoryMatch productType)).insertionSort
            scoreGe :=
        (List.mem_insertionSort scoreGe).mpr hmem
      have hfil : (c.value, categoryScore productType c) ∈
          ((categories.filterMap (categoryMatch productType)).insertionSort
            scoreGe).filter (fun m => decide ((3 : ℚ)/10 < m.2)) :=
        List.mem_filter.mpr ⟨hsort, by simpa using hscore⟩
      exact List.mem_map_of_mem Prod.fst hfil
  · decide

theorem c7_witness :
    findBestMatchingCategory "Vape Kits"
      [{ label := "Vaping / Kits", value := "21" },
       { label := "Accessories", value := "30" }] = ["21"] :=
  (c7_category_matching "" []).2

theorem c8_witness :
    getValidationState (validateAttributeMapping "Red"
      (MappedValue.str "5") (some [{ label := "Red", value := "5" }])) =
        VState.valid ∧
    getValidationState (validateAttributeMapping "Crimson"
      (MappedValue.str "") (some [{ label := "Red", value := "5" }])) =
        VState.error :=
  ⟨((c8_select_classification "Red" "5" [{ label := "Red", value := "5" }]).2.2
      { label := "Red", value := "5" } 1 (by decide) (by decide)
      (by decide)).1 (by norm_num),
   (c8_select_classification "Crimson" "" [{ label := "Red", value := "5" }]).1
     (by decide)⟩

/-- Off the seven product-level keys the per-variant fan-out writes
nothing: the variant's own entry is returned unchanged. -/
theorem updateVariantMappings_frame (vendor description productType : String)
    (pa : ProductAttrs) (m : MappingSet) (key : String)
    (h : key ∉ productLevelKeys) :
    updateVariantMappings vendor description productType pa m key = m key := by
  simp only [productLevelKeys, List.mem_cons, List.not_mem_nil, or_false] at h
  push_neg at h
  obtain ⟨h1, h2, h3, h4, h5, h6, h7⟩ := h
  simp [updateVariantMappings, h1, h2, h3, h4, h5, h6, h7]

/-- On a product-level key the fan-out overwrites: the written entry
does not depend on the variant's previous mappings. -/
theorem updateVariantMappings_overwrites (vendor description productType :
    String) (pa : ProductAttrs) (m mAlt : MappingSet) (key : String)
    (h : key ∈ productLevelKeys) :
    updateVariantMappings vendor description productType pa m key =
      updateVariantMappings vendor description productType pa mAlt key := by
  fin_cases h <;> rfl

/-- C3 (confirmed): every product-level edit (attribute change or value
change) rewrites, in every variant's mapping set, exactly the seven
product-level keys — each with a value independent of the variant's
previous mappings — and leaves every other key with exactly the entry it
had before the edit. -/
theorem c3_product_edit_frame (vendor description productType : String)
    (pa : ProductAttrs) (variantMappings : List VariantMapping)
    (e : ProductEdit) :
    List.Forall₂ (fun old new : VariantMapping =>
        (∀ key, key ∉ productLevelKeys →
          new.mappings key = old.mappings key) ∧
        (∀ key, key ∈ productLevelKeys →
          new.mappings key =
            updateVariantMappings vendor description productType
              (applyProductEdit vendor description productType pa e)
              (fun _ => none) key))
      variantMappings
      (applyProductEditToSession vendor description productType pa
        variantMappings e).2 := by
  have hmap : (applyProductEditToSession vendor description productType pa
      variantMappings e).2 =
      variantMappings.map (fun vm =>
        { vm with mappings :=
            (updateVariantMappings vendor description productType
              (applyProductEdit vendor description productType pa e)
              vm.mappings) }) := rfl
  rw [hmap, List.forall₂_map_right_iff, List.forall₂_same]
  intro vm _
  constructor
  · intro key hk
    exact updateVariantMappings_frame _ _ _ _ _ _ hk
  · intro key hk
    exact updateVariantMappings_overwrites _ _ _ _ _ _ _ hk

theorem c3_witness :
    List.Forall₂ (fun old new : VariantMapping =>
        (∀ key, key ∉ productLevelKeys →
          new.mappings key = old.mappings key) ∧
        (∀ key, key ∈ productLevelKeys →
          new.mappings key =
            updateVariantMappings "V" "D" "P"
              (applyProductEdit "V" "D" "P" examplePA
                (ProductEdit.attrChange ProductField.manufacturer
                  "manufacturer"))
              (fun _ => none) key))
      [exampleVM]
      (applyProductEditToSession "V" "D" "P" examplePA [exampleVM]
        (ProductEdit.attrChange ProductField.manufacturer
          "manufacturer")).2 :=
  c3_product_edit_frame "V" "D" "P" examplePA [exampleVM] _

/-- C4 (confirmed): during the sequential submit, if the first `k`
variant imports succeed and the import of variant `k` fails, then
exactly the first `k + 1` calls are issued — no later variant's call is
ever made — and the reported failure carries variant `k` and a message
built from its title. -/
theorem c4_sequential_submit_halts (importCall : ImportCall)
    (variants : List ShopifyVariant) (k : ℕ) (hk : k < variants.length)
    (hfail : ∃ e, importCall (variants.get ⟨k, hk⟩) = .error e)
    (hok : ∀ j (hj : j < k),
      importCall (variants.get ⟨j, lt_trans hj hk⟩) = .ok ()) :
    (runVariantImports importCall variants).1 = variants.take (k + 1) ∧
    ∃ e, (runVariantImports importCall variants).2 =
      some (variants.get ⟨k, hk⟩,
        "Failed to import variant " ++ (variants.get ⟨k, hk⟩).title ++
          ": " ++ e) := by
  induction variants generalizing k with
  | nil => exact absurd hk (Nat.not_lt_zero k)
  | cons v vs ih =>
    cases k with
    | zero =>
      obtain ⟨e, he⟩ := hfail
      simp only [List.get] at he
      refine ⟨?_, e, ?_⟩ <;> simp [runVariantImports, he, List.get]
    | succ k =>
      have h0 : importCall v = .ok () := hok 0 (Nat.succ_pos k)
      have hk' : k < vs.length := Nat.lt_of_succ_lt_succ hk
      have hfail' : ∃ e, importCall (vs.get ⟨k, hk'⟩) = .error e := hfail
      have hok' : ∀ j (hj : j < k),
          importCall (vs.get ⟨j, lt_trans hj hk'⟩) = .ok () :=
        fun j hj => hok (j + 1) (Nat.succ_lt_succ hj)
      obtain ⟨ih1, ih2⟩ := ih k hk' hfail' hok'
      refine ⟨?_, ?_⟩
      · simp [runVariantImports, h0, ih1]
      · simpa [runVariantImports, h0] using ih2

theorem c4_witness :
    (runVariantImports exampleImportCall exampleVariants).1 =
      exampleVariants.take 2 ∧
    ∃ e, (runVariantImports exampleImportCall exampleVariants).2 =
      some (exampleVariants.get ⟨1, by decide⟩,
        "Failed to import variant " ++
          (exampleVariants.get ⟨1, by decide⟩).title ++ ": " ++ e) :=
  c4_sequential_submit_halts exampleImportCall exampleVariants 1 (by decide)
    ⟨"duplicate SKU", rfl⟩
    (fun j hj => by
      have hj0 : j = 0 := Nat.lt_one_iff.mp hj
      subst hj0
      rfl)

/-- C9 (confirmed): the batch import to the selected additional stores
produces one result per store (the result at position `i` is computed
from store `i` alone, so one store's failure cannot change another
store's entry), each result carries its own store's id and succeeds
exactly when that store's call succeeds, and the summary satisfies
`total = n` and `successful + failed = total`. -/
theorem c9_store_fanout_isolation (call : StoreCall)
    (selectedStores : List ShopifyStoreConfig) :
    ((batchImport call selectedStores).2.total = selectedStores.length) ∧
    ((batchImport call selectedStores).2.successful +
      (batchImport call selectedStores).2.failed =
      (batchImport call selectedStores).2.total) ∧
    (∀ i : ℕ, (batchImport call selectedStores).1[i]? =
      (selectedStores[i]?).map (importToStore call)) ∧
    (∀ store : ShopifyStoreConfig,
      (importToStore call store).storeId = store.id ∧
      ((importToStore call store).success = true ↔
        ∃ productId, call store = .ok productId)) := by
  refine ⟨?_, ?_, ?_, ?_⟩
  · simp [batchImport]
  · exact (List.length_eq_length_filter_add _).symm
  · intro i
    simp [batchImport]
  · intro store
    cases hcall : call store with
    | ok productId => simp [importToStore, hcall]
    | error e => simp [importToStore, hcall]

theorem c9_witness :
    (batchImport exampleStoreCall exampleStores).2.successful +
      (batchImport exampleStoreCall exampleStores).2.failed =
      (batchImport exampleStoreCall exampleStores).2.total :=
  (c9_store_fanout_isolation exampleStoreCall exampleStores).2.1

/-- C10 (confirmed): when the fetch of a configurable product's existing
child SKUs fails — the request rejects, or the response is non-OK and
the source throws — the error is caught and the empty list is returned,
so the exclusion set is empty and the subsequent filter keeps every
variant. -/
theorem c10_fetch_failure_keeps_all_variants (r : FetchChildrenResult)
    (hr : r = .httpError ∨ r = .networkError)
    (variantMappings : List VariantMapping) :
    getExistingVariants r = [] ∧
    filterVariantMappings (getExistingVariants r) variantMappings =
      variantMappings := by
  have hnil : getExistingVariants r = [] := by
    rcases hr with rfl | rfl <;> rfl
  refine ⟨hnil, ?_⟩
  rw [hnil]
  unfold filterVariantMappings
  simp

theorem c10_witness :
    filterVariantMappings
      (getExistingVariants FetchChildrenResult.httpError) [exampleVM] =
      [exampleVM] :=
  (c10_fetch_failure_keeps_all_variants FetchChildrenResult.httpError
    (Or.inl rfl) [exampleVM]).2

end ProductSync
